import Mathlib

/-!
A verification development for the predictive collision-detection subsystem
(`src/modules/CollisionManager.ts` of ksheyon123/planet-defense).

The embedding is a faithful functional translation of `CollisionManager.ts`:

* Scalars are drawn from a generic `LinearOrderedField α`; the concrete
  theorems instantiate `α := ℚ` (exact arithmetic, fully computable) except
  where an exact square root is essential, where `α := ℝ` is used.
* `BABYLON.Vector3` becomes `Vec3 α`; the library calls used by the manager
  (`add`, `scale`, `clone`, `Vector3.Distance`) are all non-mutating in the
  library and become pure functions.  The single in-place library call,
  `Vector3.normalize`, is modelled explicitly (see `Vec3.normalize`).
* The exact-geometry primitives that live outside this repository —
  `mesh1.intersectsMesh(mesh2, false)` and `BABYLON.Ray.intersectsMesh` —
  are passed in as explicit oracle parameters (`intersectsNow : Bool`,
  `pick : …`), exactly where the source consults them.
* `Vector3.Distance(p, q) < r` (with `Distance = Math.sqrt(distSq)`) is
  encoded as the decidable test `0 ≤ r ∧ distSq p q < r * r`, which is
  literally equivalent (lemma `sqrtLtB_iff`) since a square root is
  nonnegative.  Consequently the `distance` field of a `CollisionResult`
  produced by the sampling-based queries carries the *squared* Euclidean
  separation (a lossless encoding of the nonnegative separation stored by
  the source); `raycastPrediction` stores the ray parameter unchanged, as
  the source does.
* The JavaScript `Map<string, BaseObject[]>` registry becomes an
  association list `Registry α`; reference identity of entities (`===`)
  is modelled by a numeric `id` unique per entity.
-/

set_option linter.unusedSectionVars false

namespace PlanetDefense

/-- 3-component vector, modelling `BABYLON.Vector3`. -/
structure Vec3 (α : Type) where
  x : α
  y : α
  z : α
deriving DecidableEq, Repr

variable {α : Type} [LinearOrderedField α]

/-- `Vector3.Zero()`. -/
def Vec3.zero : Vec3 α := ⟨0, 0, 0⟩

/-- `v.add(w)` (non-mutating in the library). -/
def Vec3.add (a b : Vec3 α) : Vec3 α := ⟨a.x + b.x, a.y + b.y, a.z + b.z⟩

/-- `v.scale(t)` (non-mutating in the library). -/
def Vec3.scale (a : Vec3 α) (t : α) : Vec3 α := ⟨a.x * t, a.y * t, a.z * t⟩

/-- `v.lengthSquared()`. -/
def Vec3.lengthSq (a : Vec3 α) : α := a.x * a.x + a.y * a.y + a.z * a.z

/-- Squared Euclidean separation; `BABYLON.Vector3.Distance(a, b)` is the
square root of this quantity. -/
def distSq (a b : Vec3 α) : α :=
  (a.x - b.x) * (a.x - b.x) + (a.y - b.y) * (a.y - b.y) + (a.z - b.z) * (a.z - b.z)

/-- Modelled from the spec: `BABYLON.Vector3.normalize()` (the library
primitive invoked by `predictMovement`, not part of this repository) scales
the vector *in place* to unit length, and leaves it unchanged when its
length is `0` or already `1`.  The square-root function of the scalar field
is passed in as `sqrtFn` (instantiated with `Real.sqrt` at `α := ℝ`). -/
def Vec3.normalize (sqrtFn : α → α) (v : Vec3 α) : Vec3 α :=
  let len := sqrtFn v.lengthSq
  if len = 0 ∨ len = 1 then v else v.scale (1 / len)

/-- The decidable encoding of `Math.sqrt d < r` for `0 ≤ d`
(see `sqrtLtB_iff`). -/
def sqrtLtB (d r : α) : Bool := decide (0 ≤ r) && decide (d < r * r)

/-- The bounding data of a `BABYLON.Mesh` that the collision manager reads:
its `position` and the `extendSize` (half-extent) of its bounding box. -/
structure Mesh (α : Type) where
  position : Vec3 α
  extendSize : Vec3 α
deriving DecidableEq, Repr

/-- A `BaseObject` as seen by the collision manager: a mesh, an active flag,
and — when the object is a `MovableObject` — a velocity.  The `id` field
models JavaScript reference identity (`===`). -/
structure Entity (α : Type) where
  id : ℕ
  mesh : Mesh α
  movable : Bool
  velocity : Vec3 α
  active : Bool
deriving DecidableEq, Repr

/-- `CollisionResult` of the source (`collisionPoint` and `distance` are
optional fields).  For the sampling-based queries `distance` carries the
squared separation (the source stores its square root: a lossless
re-encoding); for `raycastPrediction` it carries the ray parameter. -/
structure CollisionResult (α : Type) where
  willCollide : Bool
  collisionPoint : Option (Vec3 α)
  distance : Option α
deriving DecidableEq, Repr

/-- The data of a `BABYLON.PickingInfo` that `raycastPrediction` reads. -/
structure PickInfo (α : Type) where
  hit : Bool
  distance : α
  pickedPoint : Option (Vec3 α)

/-- `getVelocity`: a `MovableObject`'s velocity, `Vector3.Zero()` otherwise. -/
def getVelocity (obj : Entity α) : Vec3 α :=
  if obj.movable then obj.velocity else Vec3.zero

/-- `getCollisionRadius`: the largest component of the mesh's bounding-box
half-extent. -/
def getCollisionRadius (m : Mesh α) : α :=
  max m.extendSize.x (max m.extendSize.y m.extendSize.z)

/-- The `Map<string, BaseObject[]>` group registry as an association list. -/
def Registry (α : Type) : Type := List (String × List (Entity α))

/-- `Map.get`. -/
def lookupGroup : Registry α → String → Option (List (Entity α))
  | [], _ => none
  | (g', l') :: rest, g => if g' = g then some l' else lookupGroup rest g

/-- `Map.set` (replaces the binding when the key is present, appends it
otherwise). -/
def setGroup : Registry α → String → List (Entity α) → Registry α
  | [], g, l => [(g, l)]
  | (g', l') :: rest, g, l =>
    if g' = g then (g, l) :: rest else (g', l') :: setGroup rest g l

/-- `register(group, object)`: create the group when absent, then push. -/
def register (reg : Registry α) (g : String) (obj : Entity α) : Registry α :=
  match lookupGroup reg g with
  | none => setGroup reg g [obj]
  | some objs => setGroup reg g (objs ++ [obj])

/-- JavaScript `Array.indexOf`: the index of the first element with the
given reference identity, `none` standing for `-1`. -/
def indexOfFirst (objId : ℕ) : List (Entity α) → Option ℕ
  | [] => none
  | c :: rest =>
    if c.id = objId then some 0 else (indexOfFirst objId rest).map (· + 1)

/-- `unregister(group, object)`: `indexOf` (first match by reference
identity) followed by `splice(index, 1)` when found. -/
def unregister (reg : Registry α) (g : String) (objId : ℕ) : Registry α :=
  match lookupGroup reg g with
  | none => reg
  | some objs =>
    match indexOfFirst objId objs with
    | none => reg
    | some i => setGroup reg g (objs.eraseIdx i)

/-- `cleanup()`: every group's collection is replaced by its active
members (`objects.filter(obj => obj.isActive())`). -/
def cleanup (reg : Registry α) : Registry α :=
  reg.map (fun gl => (gl.1, gl.2.filter (fun c => c.active)))

/-- The sample time of step `s`: `(step / predictionSteps) * predictionTime`. -/
def stepTime (steps : ℕ) (time : α) (s : ℕ) : α :=
  ((s : α) / (steps : α)) * time

/-- Linear projection `position + velocity * t`. -/
def projectPos (m : Mesh α) (v : Vec3 α) (t : α) : Vec3 α :=
  m.position.add (v.scale t)

/-- The loop-body test of `predictCollision` at step `s`: whether the
separation of the projected positions is below the radius sum. -/
def pairTriggerB (obj1 obj2 : Entity α) (steps : ℕ) (time : α) (s : ℕ) : Bool :=
  let t := stepTime steps time s
  let p1 := projectPos obj1.mesh (getVelocity obj1) t
  let p2 := projectPos obj2.mesh (getVelocity obj2) t
  sqrtLtB (distSq p1 p2) (getCollisionRadius obj1.mesh + getCollisionRadius obj2.mesh)

/-- `predictCollision(obj1, obj2)`.  `intersectsNow` is the result of the
external exact-geometry call `mesh1.intersectsMesh(mesh2, false)`.  The
`for (step = 1; step <= predictionSteps; step++)` loop with early return
becomes `List.find?` over `[1, …, steps]`. -/
def predictCollision (intersectsNow : Bool) (obj1 obj2 : Entity α)
    (steps : ℕ) (time : α) : CollisionResult α :=
  if intersectsNow then
    { willCollide := true
      collisionPoint := some obj1.mesh.position
      distance := some 0 }
  else
    match (List.range' 1 steps).find? (pairTriggerB obj1 obj2 steps time) with
    | some s =>
      let t := stepTime steps time s
      let p1 := projectPos obj1.mesh (getVelocity obj1) t
      let p2 := projectPos obj2.mesh (getVelocity obj2) t
      { willCollide := true
        collisionPoint := some p1
        distance := some (distSq p1 p2) }
    | none => { willCollide := false, collisionPoint := none, distance := none }

/-- `checkPredictiveCollisions(group1, group2, onCollision)`, returning the
list of `onCollision` invocations (in invocation order) instead of calling
a callback.  `intersects` is the external exact-geometry intersection
primitive consulted by `predictCollision` for each pair. -/
def checkPredictiveCollisions (intersects : Mesh α → Mesh α → Bool)
    (reg : Registry α) (g1 g2 : String) (steps : ℕ) (time : α) :
    List (Entity α × Entity α × CollisionResult α) :=
  let objects1 := (lookupGroup reg g1).getD []
  let objects2 := (lookupGroup reg g2).getD []
  objects1.foldr (fun o1 acc =>
    if o1.active then
      (objects2.foldr (fun o2 acc2 =>
        if o2.active then
          let result := predictCollision (intersects o1.mesh o2.mesh) o1 o2 steps time
          if result.willCollide then (o1, o2, result) :: acc2 else acc2
        else acc2) []) ++ acc
    else acc) []

/-- `predictMovement(obj, direction, speed, deltaTime, checkGroup)`.  The
source calls `direction.normalize()` — an in-place mutation of the caller's
vector — so the embedding returns the final value of the caller's
`direction` alongside the result.  `t = step / predictionSteps` (the
configured `predictionTime` is not used by this query). -/
def predictMovement (sqrtFn : α → α) (reg : Registry α) (obj : Entity α)
    (direction : Vec3 α) (speed deltaTime : α) (checkGroup : String)
    (steps : ℕ) : CollisionResult α × Vec3 α :=
  let checkObjects := (lookupGroup reg checkGroup).getD []
  let normDir := Vec3.normalize sqrtFn direction
  let moveVector := normDir.scale (speed * deltaTime)
  let hit := (List.range' 1 steps).findSome? (fun s =>
    let t := (s : α) / (steps : α)
    let predictedPos := obj.mesh.position.add (moveVector.scale t)
    checkObjects.findSome? (fun checkObj =>
      if !checkObj.active || checkObj.id == obj.id then none
      else
        let dSq := distSq predictedPos checkObj.mesh.position
        let r := getCollisionRadius obj.mesh + getCollisionRadius checkObj.mesh
        if sqrtLtB dSq r then some (predictedPos, dSq) else none))
  let result : CollisionResult α :=
    match hit with
    | some (p, d) =>
      { willCollide := true, collisionPoint := some p, distance := some d }
    | none =>
      { willCollide := false, collisionPoint := none, distance := none }
  (result, normDir)

/-- The loop body of `raycastPrediction`, folded over the group.  The state
is `(closestDistance, closestPoint, willCollide)`. -/
def rayFoldStep (pick : Vec3 α → Vec3 α → α → Mesh α → PickInfo α)
    (obj : Entity α) (direction : Vec3 α) (maxDistance : α)
    (st : α × Option (Vec3 α) × Bool) (checkObj : Entity α) :
    α × Option (Vec3 α) × Bool :=
  if !checkObj.active || checkObj.id == obj.id then st
  else
    let pickInfo := pick obj.mesh.position direction maxDistance checkObj.mesh
    if pickInfo.hit && decide (pickInfo.distance < st.1) then
      (pickInfo.distance, pickInfo.pickedPoint, true)
    else st

/-- `raycastPrediction(obj, direction, maxDistance, checkGroup)`.  `pick`
is the external exact-geometry primitive
`new BABYLON.Ray(origin, direction, maxDistance).intersectsMesh(target)`. -/
def raycastPrediction (pick : Vec3 α → Vec3 α → α → Mesh α → PickInfo α)
    (reg : Registry α) (obj : Entity α) (direction : Vec3 α)
    (maxDistance : α) (checkGroup : String) : CollisionResult α :=
  let checkObjects := (lookupGroup reg checkGroup).getD []
  let final := checkObjects.foldl (rayFoldStep pick obj direction maxDistance)
    (maxDistance, none, false)
  { willCollide := final.2.2
    collisionPoint := final.2.1
    distance := if final.2.2 then some final.1 else none }

/-- The registry with every reference to the entity whose identity is
`objId` removed from every group (used to state self-exclusion). -/
def scrubSelf (reg : Registry α) (objId : ℕ) : Registry α :=
  reg.map (fun gl => (gl.1, gl.2.filter (fun c => !(c.id == objId))))

/-- The entity with its bounding half-extent replaced (position, velocity
and everything else unchanged); used to state radius monotonicity. -/
def withExtent (o : Entity α) (e : Vec3 α) : Entity α :=
  { o with mesh := { o.mesh with extendSize := e } }

/-- Componentwise order on vectors (used for bounding extents). -/
def Vec3.Le (a b : Vec3 α) : Prop := a.x ≤ b.x ∧ a.y ≤ b.y ∧ a.z ≤ b.z

/-! ### State-threaded versions of the queries

The source's queries execute against the mutable store of entity state (held
behind the group registry).  The following wrappers thread that store
explicitly; each returns it unchanged because the source queries contain no
assignment to any entity field — every library call they perform (`add`,
`scale`, `clone`, `Vector3.Distance`, `getBoundingInfo`) returns a fresh
value, and the single in-place call, `direction.normalize()` in
`predictMovement`, mutates the caller's argument vector (captured in the
second component of `predictMovement`'s return value), not entity state. -/

/-- `checkPredictiveCollisions` with the entity store threaded through. -/
def checkPredictiveCollisionsS (intersects : Mesh α → Mesh α → Bool)
    (reg : Registry α) (g1 g2 : String) (steps : ℕ) (time : α) :
    List (Entity α × Entity α × CollisionResult α) × Registry α :=
  (checkPredictiveCollisions intersects reg g1 g2 steps time, reg)

/-- `predictCollision` with the entity store threaded through. -/
def predictCollisionS (intersectsNow : Bool) (obj1 obj2 : Entity α)
    (steps : ℕ) (time : α) (reg : Registry α) : CollisionResult α × Registry α :=
  (predictCollision intersectsNow obj1 obj2 steps time, reg)

/-- `predictMovement` with the entity store threaded through (the middle
component is the final value of the caller's `direction` vector). -/
def predictMovementS (sqrtFn : α → α) (reg : Registry α) (obj : Entity α)
    (direction : Vec3 α) (speed deltaTime : α) (checkGroup : String)
    (steps : ℕ) : (CollisionResult α × Vec3 α) × Registry α :=
  (predictMovement sqrtFn reg obj direction speed deltaTime checkGroup steps, reg)

/-- `raycastPrediction` with the entity store threaded through. -/
def raycastPredictionS (pick : Vec3 α → Vec3 α → α → Mesh α → PickInfo α)
    (reg : Registry α) (obj : Entity α) (direction : Vec3 α)
    (maxDistance : α) (checkGroup : String) : CollisionResult α × Registry α :=
  (raycastPrediction pick reg obj direction maxDistance checkGroup, reg)

/-! ### Specification-side definitions

The following definitions phrase the conditions of the specification's
claims (they are written from the claims' wording, to be compared with the
source-translated functions above). -/

/-- The claim's per-step contact condition for `predictCollision`, stated
with the genuine Euclidean distance: at elapsed time
`t = (s / predictionSteps) * predictionTime`, the Euclidean distance
between the linearly projected positions (`position + velocity * t`) is
strictly below the sum of the two contact radii. -/
def euclidContactAt (obj1 obj2 : Entity ℚ) (steps : ℕ) (time : ℚ) (s : ℕ) : Prop :=
  Real.sqrt ((distSq
      (projectPos obj1.mesh (getVelocity obj1) (stepTime steps time s))
      (projectPos obj2.mesh (getVelocity obj2) (stepTime steps time s)) : ℚ) : ℝ) <
    ((getCollisionRadius obj1.mesh + getCollisionRadius obj2.mesh : ℚ) : ℝ)

/-- A group member is an eligible raycast target: active, distinct from the
queried entity by reference identity, and actually hit by the ray. -/
def rayElig (pick : Vec3 α → Vec3 α → α → Mesh α → PickInfo α)
    (obj : Entity α) (direction : Vec3 α) (maxDistance : α)
    (c : Entity α) : Prop :=
  c.active = true ∧ c.id ≠ obj.id ∧
    (pick obj.mesh.position direction maxDistance c.mesh).hit = true

/-- The ray-parameter distance the external raycast primitive reports for a
target. -/
def rayHitDist (pick : Vec3 α → Vec3 α → α → Mesh α → PickInfo α)
    (obj : Entity α) (direction : Vec3 α) (maxDistance : α)
    (c : Entity α) : α :=
  (pick obj.mesh.position direction maxDistance c.mesh).distance

/-- The world-space contact point the external raycast primitive reports
for a target (`pickInfo.pickedPoint || undefined`). -/
def rayHitPoint (pick : Vec3 α → Vec3 α → α → Mesh α → PickInfo α)
    (obj : Entity α) (direction : Vec3 α) (maxDistance : α)
    (c : Entity α) : Option (Vec3 α) :=
  (pick obj.mesh.position direction maxDistance c.mesh).pickedPoint

/-! ### Sample data for concrete instantiations -/

/-- A mover closing at speed 6 on a stationary target 3 units away
(contact radii ¼ + ¼): contact happens in the narrow window
`t ∈ (5/12, 7/12)`, which contains the sample `t = 1/2` of a 2-step sweep
but none of the samples `1/3, 2/3, 1` of a 3-step sweep. -/
def sampleMover : Entity ℚ :=
  { id := 0
    mesh := { position := ⟨0, 0, 0⟩, extendSize := ⟨1/4, 0, 0⟩ }
    movable := true
    velocity := ⟨6, 0, 0⟩
    active := true }

/-- The stationary target of `sampleMover`. -/
def sampleTarget : Entity ℚ :=
  { id := 1
    mesh := { position := ⟨3, 0, 0⟩, extendSize := ⟨1/4, 0, 0⟩ }
    movable := false
    velocity := ⟨0, 0, 0⟩
    active := true }

/-- A stationary active entity (used in registry instantiations). -/
def sampleActive : Entity ℚ :=
  { id := 7
    mesh := { position := ⟨1, 2, 3⟩, extendSize := ⟨1, 1, 1⟩ }
    movable := false
    velocity := ⟨0, 0, 0⟩
    active := true }

/-- A stationary inactive entity (used in registry instantiations). -/
def sampleInactive : Entity ℚ :=
  { id := 8
    mesh := { position := ⟨5, 5, 5⟩, extendSize := ⟨1, 1, 1⟩ }
    movable := false
    velocity := ⟨0, 0, 0⟩
    active := false }

/-- The entity casting the sample ray. -/
def sampleCaster : Entity ℚ :=
  { id := 99
    mesh := { position := ⟨0, 0, 0⟩, extendSize := ⟨1, 1, 1⟩ }
    movable := true
    velocity := ⟨0, 0, 0⟩
    active := true }

/-- A raycast target whose pick distance (under `samplePick`) is the `x`
coordinate of its position. -/
def sampleTargetAt (n : ℕ) (d : ℚ) : Entity ℚ :=
  { id := n
    mesh := { position := ⟨d, 0, 0⟩, extendSize := ⟨1, 1, 1⟩ }
    movable := false
    velocity := ⟨0, 0, 0⟩
    active := true }

/-- A sample external raycast primitive: every target is hit, at ray
parameter equal to the `x` coordinate of its position. -/
def samplePick : Vec3 ℚ → Vec3 ℚ → ℚ → Mesh ℚ → PickInfo ℚ :=
  fun _ _ _ m => { hit := true, distance := m.position.x, pickedPoint := some m.position }

/-- Registry with three raycast targets at ray distances 5, 10 and 2. -/
def sampleRayReg : Registry ℚ :=
  [("targets", [sampleTargetAt 1 5, sampleTargetAt 2 10, sampleTargetAt 3 2])]

/-- Registry with one group holding an active and an inactive entity. -/
def sampleGroupReg : Registry ℚ := [("enemy", [sampleActive, sampleInactive])]

/-- An entity over `ℝ` (used to instantiate the direction-normalization
theorem). -/
def sampleRealObj : Entity ℝ :=
  { id := 0
    mesh := { position := ⟨0, 0, 0⟩, extendSize := ⟨1, 1, 1⟩ }
    movable := true
    velocity := ⟨0, 0, 0⟩
    active := true }

/-! ### Helper lemmas -/

lemma distSq_nonneg (a b : Vec3 α) : 0 ≤ distSq a b := by
  unfold distSq
  have h1 := mul_self_nonneg (a.x - b.x)
  have h2 := mul_self_nonneg (a.y - b.y)
  have h3 := mul_self_nonneg (a.z - b.z)
  linarith

lemma lengthSq_nonneg (v : Vec3 α) : 0 ≤ v.lengthSq := by
  unfold Vec3.lengthSq
  have h1 := mul_self_nonneg v.x
  have h2 := mul_self_nonneg v.y
  have h3 := mul_self_nonneg v.z
  linarith

lemma lengthSq_eq_zero_iff (v : Vec3 α) : v.lengthSq = 0 ↔ v = Vec3.zero := by
  obtain ⟨x, y, z⟩ := v
  unfold Vec3.lengthSq Vec3.zero
  constructor
  · intro h
    have hx := mul_self_nonneg x
    have hy := mul_self_nonneg y
    have hz := mul_self_nonneg z
    have hx0 : x * x = 0 := le_antisymm (by linarith) hx
    have hy0 : y * y = 0 := le_antisymm (by linarith) hy
    have hz0 : z * z = 0 := le_antisymm (by linarith) hz
    simp only [mul_self_eq_zero] at hx0 hy0 hz0
    simp [hx0, hy0, hz0]
  · intro h
    injection h with hx hy hz
    simp [hx, hy, hz]

lemma lengthSq_scale (v : Vec3 α) (t : α) :
    (v.scale t).lengthSq = t * t * v.lengthSq := by
  unfold Vec3.scale Vec3.lengthSq
  ring

/-- The decidable test `sqrtLtB` is exactly the source's comparison
`Math.sqrt d < r` for a nonnegative radicand. -/
lemma sqrtLtB_iff (d r : ℚ) (hd : 0 ≤ d) :
    sqrtLtB d r = true ↔ Real.sqrt (d : ℝ) < (r : ℝ) := by
  unfold sqrtLtB
  simp only [Bool.and_eq_true, decide_eq_true_eq]
  constructor
  · rintro ⟨hr, hlt⟩
    rcases eq_or_lt_of_le hr with h0 | h0
    · exfalso
      rw [← h0] at hlt
      simp only [mul_zero] at hlt
      exact absurd hlt (not_lt.mpr hd)
    · rw [Real.sqrt_lt' (by exact_mod_cast h0)]
      have : (d : ℝ) < (r : ℝ) * (r : ℝ) := by exact_mod_cast hlt
      calc (d : ℝ) < (r : ℝ) * (r : ℝ) := this
        _ = (r : ℝ) ^ 2 := (sq (r : ℝ)).symm
  · intro h
    have hr : (0 : ℝ) < (r : ℝ) := lt_of_le_of_lt (Real.sqrt_nonneg _) h
    have hd2 : (d : ℝ) < (r : ℝ) ^ 2 := (Real.sqrt_lt' hr).mp h
    refine ⟨by exact_mod_cast hr.le, ?_⟩
    have : (d : ℝ) < (r : ℝ) * (r : ℝ) := by rw [← sq]; exact hd2
    exact_mod_cast this

/-- Membership in the step range of the sampling loops. -/
lemma mem_range_one (m n : ℕ) : m ∈ List.range' 1 n ↔ 1 ≤ m ∧ m ≤ n := by
  rw [List.mem_range']
  constructor
  · rintro ⟨i, hi, rfl⟩; omega
  · rintro ⟨h1, h2⟩; exact ⟨m - 1, by omega, by omega⟩

/-- `find?` over `[s, …, s+n-1]` returns exactly the least index in range
satisfying the test. -/
lemma find?_range'_eq_some (p : ℕ → Bool) :
    ∀ (n s a : ℕ), ((List.range' s n).find? p = some a ↔
      (s ≤ a ∧ a < s + n ∧ p a = true ∧ ∀ j, s ≤ j → j < a → p j = false))
  | 0, s, a => by
    constructor
    · intro h; simp [List.range'] at h
    · rintro ⟨h1, h2, -, -⟩; omega
  | n + 1, s, a => by
    rw [List.range'_succ]
    cases hps : p s with
    | true =>
      rw [List.find?_cons_of_pos _ hps]
      constructor
      · intro h
        have hsa : s = a := by injection h
        subst hsa
        exact ⟨le_refl s, by omega, hps, fun j hj hj' => by omega⟩
      · rintro ⟨h1, h2, hpa, hmin⟩
        rcases eq_or_lt_of_le h1 with rfl | hlt
        · rfl
        · have := hmin s (le_refl s) hlt
          rw [hps] at this
          exact absurd this (by simp)
    | false =>
      rw [List.find?_cons_of_neg _ (by simp [hps])]
      rw [find?_range'_eq_some p n (s + 1) a]
      constructor
      · rintro ⟨h1, h2, hpa, hmin⟩
        refine ⟨by omega, by omega, hpa, fun j hj hj' => ?_⟩
        rcases eq_or_lt_of_le hj with rfl | hlt
        · exact hps
        · exact hmin j (by omega) hj'
      · rintro ⟨h1, h2, hpa, hmin⟩
        have hne : s ≠ a := by
          intro h
          subst h
          rw [hps] at hpa
          exact absurd hpa (by simp)
        exact ⟨by omega, by omega, hpa, fun j hj hj' => hmin j (by omega) hj'⟩

/-- `predictCollision` (outside the overlap shortcut) detects a collision
exactly when some sampled step triggers the radius-sum test. -/
lemma predictCollision_false_willCollide_iff (obj1 obj2 : Entity α)
    (steps : ℕ) (time : α) :
    (predictCollision false obj1 obj2 steps time).willCollide = true ↔
      ∃ s, 1 ≤ s ∧ s ≤ steps ∧ pairTriggerB obj1 obj2 steps time s = true := by
  constructor
  · intro hw
    unfold predictCollision at hw
    simp only [Bool.false_eq_true, if_false] at hw
    cases h : (List.range' 1 steps).find? (pairTriggerB obj1 obj2 steps time) with
    | some s =>
      have hs := (find?_range'_eq_some _ _ _ _).mp h
      exact ⟨s, hs.1, by omega, hs.2.2.1⟩
    | none => rw [h] at hw; simp at hw
  · rintro ⟨s, h1, h2, h3⟩
    unfold predictCollision
    simp only [Bool.false_eq_true, if_false]
    cases h : (List.range' 1 steps).find? (pairTriggerB obj1 obj2 steps time) with
    | some s' => simp
    | none =>
      rw [List.find?_eq_none] at h
      exact absurd h3 (by simpa using h s ((mem_range_one s steps).mpr ⟨h1, h2⟩))

/-- Looking a group up after a per-group transformation of the registry. -/
lemma lookupGroup_map (f : List (Entity α) → List (Entity α)) :
    ∀ (reg : Registry α) (g : String),
      lookupGroup (reg.map (fun gl => (gl.1, f gl.2))) g =
        (lookupGroup reg g).map f
  | [], _ => rfl
  | (g', l') :: rest, g => by
    by_cases h : g' = g <;>
      simp [lookupGroup, h, lookupGroup_map f rest g]

lemma lookupGroup_setGroup_self :
    ∀ (reg : Registry α) (g : String) (l : List (Entity α)),
      lookupGroup (setGroup reg g l) g = some l
  | [], g, l => by simp [setGroup, lookupGroup]
  | (g', l') :: rest, g, l => by
    by_cases h : g' = g <;>
      simp [setGroup, lookupGroup, h, lookupGroup_setGroup_self rest g l]

lemma lookupGroup_setGroup_other :
    ∀ (reg : Registry α) (g g' : String) (l : List (Entity α)), g' ≠ g →
      lookupGroup (setGroup reg g l) g' = lookupGroup reg g'
  | [], g, g', l, h => by simp [setGroup, lookupGroup, Ne.symm h]
  | (g'', l'') :: rest, g, g', l, h => by
    by_cases h2 : g'' = g
    · subst h2; simp [setGroup, lookupGroup, Ne.symm h]
    · simp [setGroup, lookupGroup, h2,
        lookupGroup_setGroup_other rest g g' l h]

lemma indexOfFirst_eq_none_iff (objId : ℕ) :
    ∀ l : List (Entity α), indexOfFirst objId l = none ↔ ∀ c ∈ l, c.id ≠ objId
  | [] => by simp [indexOfFirst]
  | c :: rest => by
    by_cases h : c.id = objId <;>
      simp [indexOfFirst, h, indexOfFirst_eq_none_iff objId rest]

lemma indexOfFirst_decomp (objId : ℕ) (e : Entity α) (post : List (Entity α))
    (he : e.id = objId) :
    ∀ pre : List (Entity α), (∀ c ∈ pre, c.id ≠ objId) →
      indexOfFirst objId (pre ++ e :: post) = some pre.length
  | [], _ => by simp [indexOfFirst, he]
  | c :: pre, hpre => by
    have hc : c.id ≠ objId := hpre c (by simp)
    have ih := indexOfFirst_decomp objId e post he pre
      (fun d hd => hpre d (by simp [hd]))
    simp [List.cons_append, indexOfFirst, hc, ih]

lemma eraseIdx_at_append (e : Entity α) (post : List (Entity α)) :
    ∀ pre : List (Entity α),
      (pre ++ e :: post).eraseIdx pre.length = pre ++ post
  | [] => by simp
  | c :: pre => by
    simp [List.cons_append, List.eraseIdx_cons_succ, eraseIdx_at_append e post pre]

/-- Elements rejected by `p` are invisible to a `findSome?` body that
returns `none` on them. -/
lemma findSome?_filter {β : Type} (f : Entity α → Option β) (p : Entity α → Bool)
    (hf : ∀ c, p c = false → f c = none) :
    ∀ l : List (Entity α), l.findSome? f = (l.filter p).findSome? f
  | [] => rfl
  | c :: rest => by
    cases hp : p c with
    | true =>
      rw [List.filter_cons_of_pos hp]
      rw [List.findSome?_cons, List.findSome?_cons]
      cases f c <;> simp [findSome?_filter f p hf rest]
    | false =>
      rw [List.filter_cons_of_neg (by simp [hp])]
      rw [List.findSome?_cons, hf c hp]
      exact findSome?_filter f p hf rest

/-- Elements on which the step function is the identity are invisible to a
fold. -/
lemma foldl_filter_eq {σ : Type} (step : σ → Entity α → σ) (p : Entity α → Bool)
    (hstep : ∀ st c, p c = false → step st c = st) :
    ∀ (l : List (Entity α)) (st : σ),
      l.foldl step st = (l.filter p).foldl step st
  | [], _ => rfl
  | c :: rest, st => by
    cases hp : p c with
    | true =>
      rw [List.filter_cons_of_pos hp]
      simp only [List.foldl_cons]
      exact foldl_filter_eq step p hstep rest (step st c)
    | false =>
      rw [List.filter_cons_of_neg (by simp [hp]), List.foldl_cons,
        hstep st c hp]
      exact foldl_filter_eq step p hstep rest st

lemma rayFoldStep_eq_self (pick : Vec3 α → Vec3 α → α → Mesh α → PickInfo α)
    (obj : Entity α) (direction : Vec3 α) (maxDistance : α)
    (st : α × Option (Vec3 α) × Bool) (c : Entity α)
    (h : ¬ rayElig pick obj direction maxDistance c ∨
      ¬ rayHitDist pick obj direction maxDistance c < st.1) :
    rayFoldStep pick obj direction maxDistance st c = st := by
  unfold rayFoldStep
  by_cases hskip : !c.active || c.id == obj.id
  · rw [if_pos hskip]
  · rw [if_neg hskip]
    simp only [Bool.or_eq_true, Bool.not_eq_true', beq_iff_eq, not_or] at hskip
    rw [if_neg]
    simp only [Bool.and_eq_true, decide_eq_true_eq, not_and]
    intro hhit
    rcases h with h | h
    · exact absurd ⟨by simpa using hskip.1, hskip.2, hhit⟩ h
    · exact fun hlt => h hlt

lemma rayFoldStep_eq_hit (pick : Vec3 α → Vec3 α → α → Mesh α → PickInfo α)
    (obj : Entity α) (direction : Vec3 α) (maxDistance : α)
    (st : α × Option (Vec3 α) × Bool) (c : Entity α)
    (hel : rayElig pick obj direction maxDistance c)
    (hlt : rayHitDist pick obj direction maxDistance c < st.1) :
    rayFoldStep pick obj direction maxDistance st c =
      (rayHitDist pick obj direction maxDistance c,
        rayHitPoint pick obj direction maxDistance c, true) := by
  obtain ⟨ha, hid, hhit⟩ := hel
  unfold rayFoldStep
  rw [if_neg (by simp [ha, hid]),
    if_pos (by simp only [Bool.and_eq_true, decide_eq_true_eq]; exact ⟨hhit, hlt⟩)]
  rfl

/-- The closest-hit invariant of `raycastPrediction`'s fold: starting from
state `st`, either no eligible target beats the incumbent best distance and
the state is returned unchanged, or the fold returns the hit of an eligible
target that beats `st` and is minimal among all such targets. -/
lemma rayFold_char (pick : Vec3 α → Vec3 α → α → Mesh α → PickInfo α)
    (obj : Entity α) (direction : Vec3 α) (maxDistance : α) :
    ∀ (l : List (Entity α)) (st : α × Option (Vec3 α) × Bool),
      ((∀ c ∈ l, rayElig pick obj direction maxDistance c →
          ¬ rayHitDist pick obj direction maxDistance c < st.1) ∧
        l.foldl (rayFoldStep pick obj direction maxDistance) st = st)
      ∨ (∃ c ∈ l, rayElig pick obj direction maxDistance c ∧
          rayHitDist pick obj direction maxDistance c < st.1 ∧
          (∀ c' ∈ l, rayElig pick obj direction maxDistance c' →
            rayHitDist pick obj direction maxDistance c' < st.1 →
            rayHitDist pick obj direction maxDistance c ≤
              rayHitDist pick obj direction maxDistance c') ∧
          l.foldl (rayFoldStep pick obj direction maxDistance) st =
            (rayHitDist pick obj direction maxDistance c,
              rayHitPoint pick obj direction maxDistance c, true))
  | [], st => Or.inl ⟨by simp, rfl⟩
  | c :: rest, st => by
    by_cases hel : rayElig pick obj direction maxDistance c
    · by_cases hlt : rayHitDist pick obj direction maxDistance c < st.1
      · -- the head strictly improves the incumbent best
        have hstep := rayFoldStep_eq_hit pick obj direction maxDistance st c hel hlt
        rw [List.foldl_cons, hstep]
        rcases rayFold_char pick obj direction maxDistance rest
            (rayHitDist pick obj direction maxDistance c,
              rayHitPoint pick obj direction maxDistance c, true) with
          ⟨hall, heq⟩ | ⟨d, hmem, hdel, hdlt, hdmin, heq⟩
        · refine Or.inr ⟨c, by simp, hel, hlt, ?_, heq⟩
          intro c' hc' hel' hlt'
          rcases List.mem_cons.mp hc' with rfl | hc'
          · exact le_refl _
          · exact le_of_not_lt (hall c' hc' hel')
        · refine Or.inr ⟨d, List.mem_cons_of_mem c hmem, hdel,
            lt_trans hdlt hlt, ?_, heq⟩
          intro c' hc' hel' hlt'
          rcases List.mem_cons.mp hc' with rfl | hc'
          · exact le_of_lt hdlt
          · by_cases h2 : rayHitDist pick obj direction maxDistance c' <
                rayHitDist pick obj direction maxDistance c
            · exact hdmin c' hc' hel' h2
            · exact le_trans (le_of_lt hdlt) (le_of_not_lt h2)
      · -- eligible but does not beat the incumbent: state unchanged
        have hstep := rayFoldStep_eq_self pick obj direction maxDistance st c
          (Or.inr hlt)
        rw [List.foldl_cons, hstep]
        rcases rayFold_char pick obj direction maxDistance rest st with
          ⟨hall, heq⟩ | ⟨d, hmem, hdel, hdlt, hdmin, heq⟩
        · refine Or.inl ⟨?_, heq⟩
          intro c' hc' hel'
          rcases List.mem_cons.mp hc' with rfl | hc'
          · exact hlt
          · exact hall c' hc' hel'
        · refine Or.inr ⟨d, List.mem_cons_of_mem c hmem, hdel, hdlt, ?_, heq⟩
          intro c' hc' hel' hlt'
          rcases List.mem_cons.mp hc' with rfl | hc'
          · exact absurd hlt' hlt
          · exact hdmin c' hc' hel' hlt'
    · -- skipped entirely (inactive, self, or not hit)
      have hstep := rayFoldStep_eq_self pick obj direction maxDistance st c
        (Or.inl hel)
      rw [List.foldl_cons, hstep]
      rcases rayFold_char pick obj direction maxDistance rest st with
        ⟨hall, heq⟩ | ⟨d, hmem, hdel, hdlt, hdmin, heq⟩
      · refine Or.inl ⟨?_, heq⟩
        intro c' hc' hel'
        rcases List.mem_cons.mp hc' with rfl | hc'
        · exact absurd hel' hel
        · exact hall c' hc' hel'
      · refine Or.inr ⟨d, List.mem_cons_of_mem c hmem, hdel, hdlt, ?_, heq⟩
        intro c' hc' hel' hlt'
        rcases List.mem_cons.mp hc' with rfl | hc'
        · exact absurd hel' hel
        · exact hdmin c' hc' hel' hlt'

/-- The source's Boolean per-step test agrees with the claim's Euclidean
contact condition. -/
lemma pairTriggerB_iff_euclid (obj1 obj2 : Entity ℚ) (steps : ℕ) (time : ℚ)
    (s : ℕ) :
    pairTriggerB obj1 obj2 steps time s = true ↔
      euclidContactAt obj1 obj2 steps time s := by
  unfold pairTriggerB euclidContactAt
  exact sqrtLtB_iff _ _ (distSq_nonneg _ _)

/-- The radius-sum threshold test is monotone in the threshold. -/
lemma sqrtLtB_mono (d r r' : α) (hrr : r ≤ r') (h : sqrtLtB d r = true) :
    sqrtLtB d r' = true := by
  unfold sqrtLtB at h ⊢
  simp only [Bool.and_eq_true, decide_eq_true_eq] at h ⊢
  obtain ⟨h0, hlt⟩ := h
  exact ⟨le_trans h0 hrr,
    lt_of_lt_of_le hlt (mul_le_mul hrr hrr h0 (le_trans h0 hrr))⟩

/-- Enlarging an entity's bounding half-extent can only enlarge its
contact radius. -/
lemma getCollisionRadius_withExtent_le (o : Entity α) (e : Vec3 α)
    (h : Vec3.Le o.mesh.extendSize e) :
    getCollisionRadius o.mesh ≤ getCollisionRadius (withExtent o e).mesh := by
  obtain ⟨hx, hy, hz⟩ := h
  unfold getCollisionRadius withExtent
  simp only
  exact max_le_max hx (max_le_max hy hz)

/-- Sampling times are invariant under refining the step count by a
factor: step `k * s` out of `k * steps` happens at the same elapsed time
as step `s` out of `steps`. -/
lemma stepTime_mul (steps k : ℕ) (time : ℚ) (s : ℕ) (hk : 0 < k) :
    stepTime (k * steps) time (k * s) = stepTime steps time s := by
  unfold stepTime
  have hk0 : (k : ℚ) ≠ 0 := Nat.cast_ne_zero.mpr (by omega)
  push_cast
  rw [mul_div_mul_left _ _ hk0]

/-! ### Claim theorems -/

/-- **C1**: for entities whose geometries do not currently intersect,
`predictCollision` samples steps `1..predictionSteps` in increasing order
with elapsed time `t = (s / predictionSteps) * predictionTime`, projects
both positions linearly (`position + velocity * t`), and at the first step
whose Euclidean separation is strictly below the sum of the contact radii
it returns `willCollide = true` with that separation (stored squared, see
`CollisionResult`) and the projected position of the first entity as
contact point, sampling no further steps; if no step triggers it returns
`willCollide = false` with neither field populated. -/
theorem predictCollision_samples_first_contact (obj1 obj2 : Entity ℚ)
    (steps : ℕ) (time : ℚ) :
    (∃ s, 1 ≤ s ∧ s ≤ steps ∧ euclidContactAt obj1 obj2 steps time s ∧
        (∀ j, 1 ≤ j → j < s → ¬ euclidContactAt obj1 obj2 steps time j) ∧
        predictCollision false obj1 obj2 steps time =
          { willCollide := true
            collisionPoint :=
              some (projectPos obj1.mesh (getVelocity obj1) (stepTime steps time s))
            distance := some (distSq
              (projectPos obj1.mesh (getVelocity obj1) (stepTime steps time s))
              (projectPos obj2.mesh (getVelocity obj2) (stepTime steps time s))) })
    ∨ ((∀ s, 1 ≤ s → s ≤ steps → ¬ euclidContactAt obj1 obj2 steps time s) ∧
        predictCollision false obj1 obj2 steps time =
          { willCollide := false, collisionPoint := none, distance := none }) := by
  cases h : (List.range' 1 steps).find? (pairTriggerB obj1 obj2 steps time) with
  | some s =>
    obtain ⟨h1, h2, h3, hmin⟩ := (find?_range'_eq_some _ _ _ _).mp h
    refine Or.inl ⟨s, h1, by omega,
      (pairTriggerB_iff_euclid _ _ _ _ _).mp h3,
      fun j hj hj' hcontact =>
        absurd ((pairTriggerB_iff_euclid obj1 obj2 steps time j).mpr hcontact)
          (by simp [hmin j hj hj']), ?_⟩
    unfold predictCollision
    simp only [Bool.false_eq_true, if_false, h]
  | none =>
    have hnone := List.find?_eq_none.mp h
    refine Or.inr ⟨fun s h1 h2 hc =>
      absurd ((pairTriggerB_iff_euclid obj1 obj2 steps time s).mpr hc)
        (by simpa using hnone s ((mem_range_one s steps).mpr ⟨h1, h2⟩)), ?_⟩
    unfold predictCollision
    simp only [Bool.false_eq_true, if_false, h]

/-- **C2**: for entities whose geometries currently intersect (the external
exact-geometry test reports `true`), `predictCollision` returns
`willCollide = true`, `distance = 0` and the first entity's current
position as contact point, regardless of velocities and of the
`predictionSteps`/`predictionTime` configuration. -/
theorem predictCollision_overlap_shortcut (obj1 obj2 : Entity ℚ)
    (steps : ℕ) (time : ℚ) :
    predictCollision true obj1 obj2 steps time =
      { willCollide := true
        collisionPoint := some obj1.mesh.position
        distance := some 0 } := rfl

/-- **C5, counterexample**: increasing `predictionSteps` from 2 to 3 (with
`predictionTime = 1` fixed) removes a previously-found detection, because
the 3-step sweep samples a different set of instants: `sampleMover` meets
`sampleTarget` only in the window `t ∈ (5/12, 7/12)`, which contains the
2-step sample `1/2` but none of `1/3, 2/3, 1`. -/
theorem predictCollision_steps_not_monotone :
    2 < 3 ∧
    (predictCollision false sampleMover sampleTarget 2 1).willCollide = true ∧
    (predictCollision false sampleMover sampleTarget 3 1).willCollide = false := by
  refine ⟨by norm_num, ?_, ?_⟩ <;>
    norm_num [predictCollision, pairTriggerB, stepTime, projectPos, distSq,
      sqrtLtB, getVelocity, getCollisionRadius, Vec3.add, Vec3.scale, Vec3.zero,
      List.range', List.find?, sampleMover, sampleTarget]

/-- **C5, amended**: with positions, velocities and `predictionTime` held
fixed, refining `predictionSteps` by an integer factor (so that every
previously sampled instant is sampled again) preserves a
`willCollide = true` result; for arbitrary increases of `predictionSteps`
the sample set changes and a detection can be lost
(`predictCollision_steps_not_monotone`). -/
theorem predictCollision_steps_refinement (obj1 obj2 : Entity ℚ)
    (steps k : ℕ) (time : ℚ) (hk : 0 < k)
    (h : (predictCollision false obj1 obj2 steps time).willCollide = true) :
    (predictCollision false obj1 obj2 (k * steps) time).willCollide = true := by
  rw [predictCollision_false_willCollide_iff] at h ⊢
  obtain ⟨s, h1, h2, h3⟩ := h
  refine ⟨k * s, by nlinarith, Nat.mul_le_mul_left k h2, ?_⟩
  unfold pairTriggerB at h3 ⊢
  rw [stepTime_mul steps k time s hk]
  exact h3

/-- Witness for `predictCollision_steps_refinement`: the 2-step detection
of `sampleMover` against `sampleTarget` survives refinement to 6 steps. -/
theorem predictCollision_steps_refinement_witness :
    0 < 3 ∧
    (predictCollision false sampleMover sampleTarget 2 1).willCollide = true ∧
    (predictCollision false sampleMover sampleTarget (3 * 2) 1).willCollide = true := by
  refine ⟨by norm_num, ?_, ?_⟩
  · norm_num [predictCollision, pairTriggerB, stepTime, projectPos, distSq,
      sqrtLtB, getVelocity, getCollisionRadius, Vec3.add, Vec3.scale, Vec3.zero,
      List.range', List.find?, sampleMover, sampleTarget]
  · exact predictCollision_steps_refinement sampleMover sampleTarget 2 3 1
      (by norm_num)
      (by norm_num [predictCollision, pairTriggerB, stepTime, projectPos, distSq,
        sqrtLtB, getVelocity, getCollisionRadius, Vec3.add, Vec3.scale, Vec3.zero,
        List.range', List.find?, sampleMover, sampleTarget])

/-- **C6**: with positions, velocities and configuration fixed, enlarging
either entity's bounding half-extent componentwise (hence its contact
radius, the maximum of the three components) never turns a
`willCollide = true` result of `predictCollision` into `false`. -/
theorem predictCollision_radius_monotone (obj1 obj2 : Entity ℚ)
    (e1 e2 : Vec3 ℚ) (b : Bool) (steps : ℕ) (time : ℚ)
    (h1 : Vec3.Le obj1.mesh.extendSize e1)
    (h2 : Vec3.Le obj2.mesh.extendSize e2)
    (h : (predictCollision b obj1 obj2 steps time).willCollide = true) :
    (predictCollision b (withExtent obj1 e1) (withExtent obj2 e2)
      steps time).willCollide = true := by
  cases b with
  | true => rfl
  | false =>
    rw [predictCollision_false_willCollide_iff] at h ⊢
    obtain ⟨s, hs1, hs2, hs3⟩ := h
    refine ⟨s, hs1, hs2, ?_⟩
    have hrad : getCollisionRadius obj1.mesh + getCollisionRadius obj2.mesh ≤
        getCollisionRadius (withExtent obj1 e1).mesh +
          getCollisionRadius (withExtent obj2 e2).mesh :=
      add_le_add (getCollisionRadius_withExtent_le _ _ h1)
        (getCollisionRadius_withExtent_le _ _ h2)
    unfold pairTriggerB at hs3 ⊢
    exact sqrtLtB_mono _ _ _ hrad hs3

/-- Witness for `predictCollision_radius_monotone`: the 2-step detection of
`sampleMover` against `sampleTarget` survives growing both bounding
extents. -/
theorem predictCollision_radius_monotone_witness :
    Vec3.Le sampleMover.mesh.extendSize ⟨1/2, 0, 0⟩ ∧
    Vec3.Le sampleTarget.mesh.extendSize ⟨1/4, 0, 0⟩ ∧
    (predictCollision false sampleMover sampleTarget 2 1).willCollide = true ∧
    (predictCollision false (withExtent sampleMover ⟨1/2, 0, 0⟩)
      (withExtent sampleTarget ⟨1/4, 0, 0⟩) 2 1).willCollide = true := by
  have h1 : Vec3.Le sampleMover.mesh.extendSize ⟨1/2, 0, 0⟩ := by
    norm_num [Vec3.Le, sampleMover]
  have h2 : Vec3.Le sampleTarget.mesh.extendSize ⟨1/4, 0, 0⟩ := by
    norm_num [Vec3.Le, sampleTarget]
  have h3 : (predictCollision false sampleMover sampleTarget 2 1).willCollide = true := by
    norm_num [predictCollision, pairTriggerB, stepTime, projectPos, distSq,
      sqrtLtB, getVelocity, getCollisionRadius, Vec3.add, Vec3.scale, Vec3.zero,
      List.range', List.find?, sampleMover, sampleTarget]
  exact ⟨h1, h2, h3,
    predictCollision_radius_monotone sampleMover sampleTarget _ _ false 2 1 h1 h2 h3⟩

/-- **C7**: `cleanup()` replaces every group's collection with exactly the
subsequence of its currently-active entities: active members survive in
unchanged relative order (a sublist) and inactive members are removed. -/
theorem cleanup_keeps_exactly_active (reg : Registry ℚ) (g : String)
    (l : List (Entity ℚ)) (h : lookupGroup reg g = some l) :
    lookupGroup (cleanup reg) g = some (l.filter (fun c => c.active)) ∧
    (l.filter (fun c => c.active)).Sublist l ∧
    ∀ e : Entity ℚ, (e ∈ l.filter (fun c => c.active) ↔ e ∈ l ∧ e.active = true) := by
  refine ⟨?_, List.filter_sublist l, fun e => by simp⟩
  unfold cleanup
  rw [lookupGroup_map (fun l2 => l2.filter (fun c => c.active)) reg g, h]
  rfl

/-- Witness for `cleanup_keeps_exactly_active`: cleaning up a group holding
an active and an inactive entity keeps exactly the active one. -/
theorem cleanup_keeps_exactly_active_witness :
    lookupGroup sampleGroupReg "enemy" = some [sampleActive, sampleInactive] ∧
    lookupGroup (cleanup sampleGroupReg) "enemy" = some [sampleActive] := by
  have h : lookupGroup sampleGroupReg "enemy" =
      some [sampleActive, sampleInactive] := by
    simp [sampleGroupReg, lookupGroup]
  have main := cleanup_keeps_exactly_active sampleGroupReg "enemy" _ h
  refine ⟨h, ?_⟩
  rw [main.1]
  norm_num [sampleActive, sampleInactive, List.filter]

/-- **C3**: `raycastPrediction` returns the closest qualifying hit among
all other active members of the group — a hit qualifies only when its
ray-parameter distance is strictly below the incumbent best, initialized to
`maxDistance` (so a hit at exactly `maxDistance` is never reported).  When
some hit qualifies, the result is `willCollide = true` with the minimal
qualifying hit's distance and picked point; otherwise `willCollide = false`
with neither field populated. -/
theorem raycastPrediction_closest_hit
    (pick : Vec3 ℚ → Vec3 ℚ → ℚ → Mesh ℚ → PickInfo ℚ) (reg : Registry ℚ)
    (obj : Entity ℚ) (direction : Vec3 ℚ) (maxDistance : ℚ)
    (checkGroup : String) :
    ((∀ c ∈ (lookupGroup reg checkGroup).getD [],
        rayElig pick obj direction maxDistance c →
          ¬ rayHitDist pick obj direction maxDistance c < maxDistance) →
      raycastPrediction pick reg obj direction maxDistance checkGroup =
        { willCollide := false, collisionPoint := none, distance := none }) ∧
    ((∃ c ∈ (lookupGroup reg checkGroup).getD [],
        rayElig pick obj direction maxDistance c ∧
        rayHitDist pick obj direction maxDistance c < maxDistance) →
      ∃ c ∈ (lookupGroup reg checkGroup).getD [],
        rayElig pick obj direction maxDistance c ∧
        rayHitDist pick obj direction maxDistance c < maxDistance ∧
        (∀ c' ∈ (lookupGroup reg checkGroup).getD [],
          rayElig pick obj direction maxDistance c' →
          rayHitDist pick obj direction maxDistance c' < maxDistance →
          rayHitDist pick obj direction maxDistance c ≤
            rayHitDist pick obj direction maxDistance c') ∧
        raycastPrediction pick reg obj direction maxDistance checkGroup =
          { willCollide := true
            collisionPoint := rayHitPoint pick obj direction maxDistance c
            distance := some (rayHitDist pick obj direction maxDistance c) }) := by
  rcases rayFold_char pick obj direction maxDistance
      ((lookupGroup reg checkGroup).getD []) (maxDistance, none, false) with
    ⟨hall, heq⟩ | ⟨c, hmem, hel, hlt, hmin, heq⟩
  · constructor
    · intro _
      simp only [raycastPrediction]
      rw [heq]
      rfl
    · rintro ⟨c, hmem, hel, hlt⟩
      exact absurd hlt (hall c hmem hel)
  · constructor
    · intro hnone
      exact absurd hlt (hnone c hmem hel)
    · intro _
      refine ⟨c, hmem, hel, hlt, hmin, ?_⟩
      simp only [raycastPrediction]
      rw [heq]
      rfl

/-- Witness for `raycastPrediction_closest_hit`: with three targets at ray
distances 5, 10 and 2 (all within `maxDistance = 20`), the closest hit — at
distance 2 — is returned. -/
theorem raycastPrediction_closest_hit_witness :
    (∃ c ∈ (lookupGroup sampleRayReg "targets").getD [],
      rayElig samplePick sampleCaster ⟨1, 0, 0⟩ 20 c ∧
      rayHitDist samplePick sampleCaster ⟨1, 0, 0⟩ 20 c < 20) ∧
    (∃ c ∈ (lookupGroup sampleRayReg "targets").getD [],
      rayElig samplePick sampleCaster ⟨1, 0, 0⟩ 20 c ∧
      rayHitDist samplePick sampleCaster ⟨1, 0, 0⟩ 20 c < 20 ∧
      (∀ c' ∈ (lookupGroup sampleRayReg "targets").getD [],
        rayElig samplePick sampleCaster ⟨1, 0, 0⟩ 20 c' →
        rayHitDist samplePick sampleCaster ⟨1, 0, 0⟩ 20 c' < 20 →
        rayHitDist samplePick sampleCaster ⟨1, 0, 0⟩ 20 c ≤
          rayHitDist samplePick sampleCaster ⟨1, 0, 0⟩ 20 c') ∧
      raycastPrediction samplePick sampleRayReg sampleCaster ⟨1, 0, 0⟩ 20 "targets" =
        { willCollide := true
          collisionPoint := rayHitPoint samplePick sampleCaster ⟨1, 0, 0⟩ 20 c
          distance := some (rayHitDist samplePick sampleCaster ⟨1, 0, 0⟩ 20 c) }) ∧
    (raycastPrediction samplePick sampleRayReg sampleCaster ⟨1, 0, 0⟩ 20
        "targets").distance = some 2 := by
  have hex : ∃ c ∈ (lookupGroup sampleRayReg "targets").getD [],
      rayElig samplePick sampleCaster ⟨1, 0, 0⟩ 20 c ∧
      rayHitDist samplePick sampleCaster ⟨1, 0, 0⟩ 20 c < 20 := by
    refine ⟨sampleTargetAt 3 2, ?_, ⟨rfl, by norm_num [sampleTargetAt, sampleCaster], rfl⟩, ?_⟩
    · simp [sampleRayReg, lookupGroup]
    · norm_num [rayHitDist, samplePick, sampleTargetAt]
  refine ⟨hex,
    (raycastPrediction_closest_hit samplePick sampleRayReg sampleCaster
      ⟨1, 0, 0⟩ 20 "targets").2 hex, ?_⟩
  norm_num [raycastPrediction, rayFoldStep, lookupGroup, sampleRayReg,
    samplePick, sampleCaster, sampleTargetAt, List.foldl]

/-- **C4**: the queried entity is excluded from the checked targets by
reference identity — `predictMovement` (and likewise `raycastPrediction`)
computes the same result whether or not any reference to the queried entity
is present in the scanned group, so it can never report a collision of the
entity against itself. -/
theorem predictMovement_excludes_self (sqrtFn : ℚ → ℚ)
    (pick : Vec3 ℚ → Vec3 ℚ → ℚ → Mesh ℚ → PickInfo ℚ) (reg : Registry ℚ)
    (obj : Entity ℚ) (direction : Vec3 ℚ) (speed deltaTime maxDistance : ℚ)
    (checkGroup : String) (steps : ℕ) :
    predictMovement sqrtFn reg obj direction speed deltaTime checkGroup steps =
      predictMovement sqrtFn (scrubSelf reg obj.id) obj direction speed
        deltaTime checkGroup steps ∧
    raycastPrediction pick reg obj direction maxDistance checkGroup =
      raycastPrediction pick (scrubSelf reg obj.id) obj direction maxDistance
        checkGroup := by
  have hlook : lookupGroup (scrubSelf reg obj.id) checkGroup =
      (lookupGroup reg checkGroup).map
        (fun l => l.filter (fun c => !(c.id == obj.id))) :=
    lookupGroup_map _ reg checkGroup
  constructor
  · simp only [predictMovement, hlook]
    cases hre : lookupGroup reg checkGroup with
    | none => rfl
    | some l =>
      simp only [Option.map_some', Option.getD_some]
      have hinner : ∀ pos : Vec3 ℚ,
          l.findSome? (fun checkObj =>
            if !checkObj.active || checkObj.id == obj.id then none
            else
              if sqrtLtB (distSq pos checkObj.mesh.position)
                  (getCollisionRadius obj.mesh + getCollisionRadius checkObj.mesh) then
                some (pos, distSq pos checkObj.mesh.position)
              else none) =
          (l.filter (fun c => !(c.id == obj.id))).findSome? (fun checkObj =>
            if !checkObj.active || checkObj.id == obj.id then none
            else
              if sqrtLtB (distSq pos checkObj.mesh.position)
                  (getCollisionRadius obj.mesh + getCollisionRadius checkObj.mesh) then
                some (pos, distSq pos checkObj.mesh.position)
              else none) := by
        intro pos
        refine findSome?_filter _ _ (fun c hc => ?_) l
        simp only [Bool.not_eq_false'] at hc
        simp [hc]
      simp only [hinner]
  · simp only [raycastPrediction, hlook]
    cases hre : lookupGroup reg checkGroup with
    | none => rfl
    | some l =>
      simp only [Option.map_some', Option.getD_some]
      rw [foldl_filter_eq (rayFoldStep pick obj direction maxDistance)
        (fun c => !(c.id == obj.id))
        (fun st c hc => by
          simp only [Bool.not_eq_false'] at hc
          simp [rayFoldStep, hc]) l]

/-- **C8**: `unregister` removes exactly the first matching reference from
the named group when present (other groups untouched), and is a no-op —
never a failure — when the group or the entity is absent; querying an
unknown or empty group yields an empty result: `checkPredictiveCollisions`
invokes no callback, and `predictMovement` and `raycastPrediction` report
`willCollide = false` with no fields populated. -/
theorem unregister_noop_and_empty_queries (reg : Registry ℚ) (g : String)
    (objId : ℕ) :
    (lookupGroup reg g = none → unregister reg g objId = reg) ∧
    (∀ l, lookupGroup reg g = some l → (∀ c ∈ l, c.id ≠ objId) →
      unregister reg g objId = reg) ∧
    (∀ pre (e : Entity ℚ) post, lookupGroup reg g = some (pre ++ e :: post) →
      (∀ c ∈ pre, c.id ≠ objId) → e.id = objId →
      lookupGroup (unregister reg g objId) g = some (pre ++ post) ∧
      ∀ g', g' ≠ g →
        lookupGroup (unregister reg g objId) g' = lookupGroup reg g') ∧
    ((lookupGroup reg g).getD [] = [] →
      ∀ (intersects : Mesh ℚ → Mesh ℚ → Bool) (g2 : String) (steps : ℕ)
        (time : ℚ) (sqrtFn : ℚ → ℚ)
        (pick : Vec3 ℚ → Vec3 ℚ → ℚ → Mesh ℚ → PickInfo ℚ)
        (obj : Entity ℚ) (direction : Vec3 ℚ) (speed deltaTime maxDistance : ℚ),
        checkPredictiveCollisions intersects reg g g2 steps time = [] ∧
        checkPredictiveCollisions intersects reg g2 g steps time = [] ∧
        (predictMovement sqrtFn reg obj direction speed deltaTime g steps).1 =
          { willCollide := false, collisionPoint := none, distance := none } ∧
        raycastPrediction pick reg obj direction maxDistance g =
          { willCollide := false, collisionPoint := none, distance := none }) := by
  refine ⟨?_, ?_, ?_, ?_⟩
  · intro h
    simp [unregister, h]
  · intro l h hno
    simp [unregister, h, (indexOfFirst_eq_none_iff objId l).mpr hno]
  · intro pre e post h hpre he
    have hidx := indexOfFirst_decomp objId e post he pre hpre
    have herase := eraseIdx_at_append e post pre
    constructor
    · simp only [unregister, h, hidx, herase]
      exact lookupGroup_setGroup_self reg g (pre ++ post)
    · intro g' hg'
      simp only [unregister, h, hidx, herase]
      exact lookupGroup_setGroup_other reg g g' (pre ++ post) hg'
  · intro hempty intersects g2 steps time sqrtFn pick obj direction speed
      deltaTime maxDistance
    refine ⟨?_, ?_, ?_, ?_⟩
    · simp [checkPredictiveCollisions, hempty]
    · simp only [checkPredictiveCollisions, hempty]
      generalize (lookupGroup reg g2).getD [] = L
      induction L with
      | nil => rfl
      | cons c rest ih =>
        simp only [List.foldr_cons, List.foldr_nil, List.nil_append, ite_self]
        simpa only [List.foldr_nil, List.nil_append, ite_self] using ih
    · simp only [predictMovement, hempty]
      generalize List.range' 1 steps = L
      induction L with
      | nil => rfl
      | cons a L ih => exact ih
    · simp [raycastPrediction, hempty, List.foldl_nil]

/-- Witness for `unregister_noop_and_empty_queries`: instantiated on a
registry holding one two-member group; covers the absent-group no-op, the
absent-entity no-op, first-occurrence removal, and the empty-group
queries. -/
theorem unregister_noop_and_empty_queries_witness :
    unregister sampleGroupReg "ghost" 7 = sampleGroupReg ∧
    unregister sampleGroupReg "enemy" 999 = sampleGroupReg ∧
    lookupGroup (unregister sampleGroupReg "enemy" 7) "enemy" =
      some [sampleInactive] ∧
    checkPredictiveCollisions (fun _ _ => true) sampleGroupReg "ghost" "enemy"
      3 1 = [] ∧
    (predictMovement id sampleGroupReg sampleCaster ⟨1, 0, 0⟩ 1 1 "ghost" 3).1 =
      { willCollide := false, collisionPoint := none, distance := none } := by
  have main := unregister_noop_and_empty_queries sampleGroupReg "ghost" 7
  have main2 := unregister_noop_and_empty_queries sampleGroupReg "enemy" 999
  have main3 := unregister_noop_and_empty_queries sampleGroupReg "enemy" 7
  have hghost : lookupGroup sampleGroupReg "ghost" = none := by
    simp [sampleGroupReg, lookupGroup]
  have henemy : lookupGroup sampleGroupReg "enemy" =
      some [sampleActive, sampleInactive] := by
    simp [sampleGroupReg, lookupGroup]
  have hempty : (lookupGroup sampleGroupReg "ghost").getD [] = [] := by
    rw [hghost]; rfl
  refine ⟨main.1 hghost, ?_, ?_, ?_, ?_⟩
  · exact main2.2.1 [sampleActive, sampleInactive] henemy
      (by norm_num [sampleActive, sampleInactive])
  · have := (main3.2.2.1 [] sampleActive [sampleInactive]
      (by simpa using henemy) (by simp) (by norm_num [sampleActive])).1
    simpa using this
  · exact (unregister_noop_and_empty_queries sampleGroupReg "ghost" 7).2.2.2
      hempty (fun _ _ => true) "enemy" 3 1 id
      (fun _ _ _ m => ⟨true, 0, none⟩) sampleCaster ⟨1, 0, 0⟩ 1 1 1 |>.1
  · exact (unregister_noop_and_empty_queries sampleGroupReg "ghost" 7).2.2.2
      hempty (fun _ _ => true) "enemy" 3 1 id
      (fun _ _ _ m => ⟨true, 0, none⟩) sampleCaster ⟨1, 0, 0⟩ 1 1 1 |>.2.2.1

/-- **C9**: no query mutates entity state.  Each query, with the entity
store threaded through explicitly, returns the store unchanged: the source
queries contain no assignment to any entity's position, velocity or active
flag (the lone in-place library call they make, `direction.normalize()`,
mutates the caller's argument vector, which is not entity state). -/
theorem queries_do_not_mutate_entities (intersects : Mesh ℚ → Mesh ℚ → Bool)
    (intersectsNow : Bool)
    (pick : Vec3 ℚ → Vec3 ℚ → ℚ → Mesh ℚ → PickInfo ℚ) (sqrtFn : ℚ → ℚ)
    (reg : Registry ℚ) (obj obj2 : Entity ℚ) (direction : Vec3 ℚ)
    (g1 g2 checkGroup : String) (steps : ℕ)
    (time speed deltaTime maxDistance : ℚ) :
    (checkPredictiveCollisionsS intersects reg g1 g2 steps time).2 = reg ∧
    (predictCollisionS intersectsNow obj obj2 steps time reg).2 = reg ∧
    (predictMovementS sqrtFn reg obj direction speed deltaTime checkGroup
      steps).2 = reg ∧
    (raycastPredictionS pick reg obj direction maxDistance checkGroup).2 = reg :=
  ⟨rfl, rfl, rfl, rfl⟩

/-- A nonzero vector normalized (in the library's in-place fashion) with
the genuine square root has unit length. -/
lemma normalize_unit_length (v : Vec3 ℝ) (hv : v ≠ Vec3.zero) :
    (Vec3.normalize Real.sqrt v).lengthSq = 1 := by
  have hL : 0 < v.lengthSq :=
    lt_of_le_of_ne (lengthSq_nonneg v)
      (Ne.symm (fun h => hv ((lengthSq_eq_zero_iff v).mp h)))
  have hms := Real.mul_self_sqrt hL.le
  simp only [Vec3.normalize]
  by_cases h : Real.sqrt v.lengthSq = 0 ∨ Real.sqrt v.lengthSq = 1
  · rcases h with h0 | h1
    · have := Real.sqrt_pos.mpr hL
      rw [h0] at this
      exact absurd this (lt_irrefl 0)
    · rw [if_pos (Or.inr h1), ← hms, h1, one_mul]
  · rw [if_neg h, lengthSq_scale, div_mul_div_comm, one_mul, hms]
    exact one_div_mul_cancel hL.ne'

/-- **C10**: `predictMovement` destructively normalizes its `direction`
argument before scaling: after the call the caller's direction vector holds
`direction.normalize()`, which for a direction of non-zero length is a
unit-length vector. -/
theorem predictMovement_normalizes_direction_in_place (reg : Registry ℝ)
    (obj : Entity ℝ) (direction : Vec3 ℝ) (speed deltaTime : ℝ)
    (checkGroup : String) (steps : ℕ) (hdir : direction ≠ Vec3.zero) :
    (predictMovementS Real.sqrt reg obj direction speed deltaTime checkGroup
        steps).1.2 = Vec3.normalize Real.sqrt direction ∧
    (Vec3.normalize Real.sqrt direction).lengthSq = 1 ∧
    Real.sqrt (Vec3.normalize Real.sqrt direction).lengthSq = 1 := by
  have h2 := normalize_unit_length direction hdir
  exact ⟨rfl, h2, by rw [h2, Real.sqrt_one]⟩

/-- Witness for `predictMovement_normalizes_direction_in_place` at the
direction `(3, 4, 0)`. -/
theorem predictMovement_normalizes_direction_in_place_witness :
    (⟨3, 4, 0⟩ : Vec3 ℝ) ≠ Vec3.zero ∧
    ((predictMovementS Real.sqrt ([] : Registry ℝ) sampleRealObj ⟨3, 4, 0⟩
        1 1 "g" 3).1.2 = Vec3.normalize Real.sqrt ⟨3, 4, 0⟩ ∧
      (Vec3.normalize Real.sqrt (⟨3, 4, 0⟩ : Vec3 ℝ)).lengthSq = 1 ∧
      Real.sqrt (Vec3.normalize Real.sqrt (⟨3, 4, 0⟩ : Vec3 ℝ)).lengthSq = 1) := by
  have hne : (⟨3, 4, 0⟩ : Vec3 ℝ) ≠ Vec3.zero := by
    intro h
    have := congrArg Vec3.x h
    norm_num [Vec3.zero] at this
  exact ⟨hne, predictMovement_normalizes_direction_in_place
    ([] : Registry ℝ) sampleRealObj ⟨3, 4, 0⟩ 1 1 "g" 3 hne⟩

end PlanetDefense
